import Mathlib

set_option maxRecDepth 4000

/-!
Shallow embedding of the block resync engine of `src/block/resync.rs`.

Conventions of the embedding:
* Byte strings (tree keys and values) are `List Nat`; a well-formed byte is `< 256`.
* Rust `u64` arithmetic is `Nat` arithmetic reduced `% 2^64` wherever the source
  wraps (`wrapping` semantics of release builds).
* The two durable trees (`resync.queue`, `resync.errors`) are ordered association
  lists over byte-string keys, mirroring an ordered key/value store.
* Statements about mutation order (insert-before-remove) are phrased over the
  list of primitive tree operations (`QOp`) an iteration performs, in order;
  `applyOps` replays them on a state.
* External collaborators of `resync_block` (block store, replication layer, RPC)
  are an oracle record `ResyncBlockEnv`; the trace of external calls the
  procedure makes is returned as a `List RBAction`.
* The ambient wall clock is a stream `clock : Nat → Nat` of successive
  `now_msec()` readings; `resync_iter` reads the clock exactly once, so only
  `clock 0` is consumed.
* Code paths that panic in Rust (out-of-bounds slicing, failed `unwrap`) are
  modelled by an `Option` result, `none` standing for the panic.
-/

/-- Byte strings: lists of `Nat`, a well-formed byte being `< 256`. -/
abbrev Bytes := List Nat

/-- The modulus `2^64` of Rust `u64` arithmetic. -/
def U64 : Nat := 18446744073709551616

/-- Rust `u64::to_be_bytes`: the 8-byte big-endian encoding of a 64-bit value
(the divisors are `2^56, 2^48, ..., 2^8`). -/
def u64_to_be_bytes (n : Nat) : Bytes :=
  [n / 72057594037927936 % 256, n / 281474976710656 % 256,
   n / 1099511627776 % 256, n / 4294967296 % 256,
   n / 16777216 % 256, n / 65536 % 256, n / 256 % 256, n % 256]

/-- Rust `u64::from_be_bytes`: big-endian decoding of a byte string. -/
def u64_from_be_bytes (bs : Bytes) : Nat :=
  bs.foldl (fun acc b => acc * 256 + b) 0

/-- The struct `ErrorCounter` of `resync.rs`: consecutive-error count and
time of the last failing try, both `u64` milliseconds. -/
structure ErrorCounter where
  errors : Nat
  last_try : Nat
deriving DecidableEq

/-- Source constant `RESYNC_RETRY_DELAY = Duration::from_secs(60)`, in ms. -/
def RESYNC_RETRY_DELAY_MSEC : Nat := 60000

/-- Source constant `RESYNC_RETRY_DELAY_MAX_BACKOFF_POWER = 6`. -/
def RESYNC_RETRY_DELAY_MAX_BACKOFF_POWER : Nat := 6

/-- Source `ErrorCounter::new(now)`. -/
def ErrorCounter.new (now : Nat) : ErrorCounter :=
  { errors := 1, last_try := now }

/-- Source `ErrorCounter::decode(data)`: reads `data[0..8]` and `data[8..16]`
as big-endian `u64`s.  The slicing panics when `data` is shorter than 16
bytes; the panic is modelled as `none`. -/
def ErrorCounter.decode? (data : Bytes) : Option ErrorCounter :=
  if 16 ≤ data.length then
    some { errors := u64_from_be_bytes (data.take 8),
           last_try := u64_from_be_bytes ((data.drop 8).take 8) }
  else none

/-- Source `ErrorCounter::encode`: the two fields as big-endian `u64`s,
concatenated. -/
def ErrorCounter.encode (c : ErrorCounter) : Bytes :=
  u64_to_be_bytes c.errors ++ u64_to_be_bytes c.last_try

/-- Source `ErrorCounter::add1(now)`: increment `errors` (`u64` wrap), set
`last_try := now`. -/
def ErrorCounter.add1 (c : ErrorCounter) (now : Nat) : ErrorCounter :=
  { errors := (c.errors + 1) % U64, last_try := now }

/-- Source `ErrorCounter::delay_msec`: `60000 << min(errors - 1, 6)` in `u64`
arithmetic (`errors - 1` is the wrapping subtraction `(errors + 2^64 - 1) % 2^64`). -/
def ErrorCounter.delay_msec (c : ErrorCounter) : Nat :=
  (RESYNC_RETRY_DELAY_MSEC <<<
    min ((c.errors + (U64 - 1)) % U64) RESYNC_RETRY_DELAY_MAX_BACKOFF_POWER) % U64

/-- Source `ErrorCounter::next_try`: `last_try + delay_msec` in `u64` arithmetic. -/
def ErrorCounter.next_try (c : ErrorCounter) : Nat :=
  (c.last_try + c.delay_msec) % U64

/-- Byte-string comparison: strict lexicographic order, shorter prefixes first.
This is the key order of the ordered key/value trees. -/
def lexLt : Bytes → Bytes → Bool
  | [], [] => false
  | [], _ :: _ => true
  | _ :: _, [] => false
  | a :: as, b :: bs => a < b || (a == b && lexLt as bs)

/-- Ordered-tree insert: place `(k, v)` at its key position, overwriting an
existing entry with the same key. -/
def treeInsert (k v : Bytes) : List (Bytes × Bytes) → List (Bytes × Bytes)
  | [] => [(k, v)]
  | (k2, v2) :: rest =>
    if lexLt k k2 then (k, v) :: (k2, v2) :: rest
    else if k == k2 then (k, v) :: rest
    else (k2, v2) :: treeInsert k v rest

/-- Ordered-tree remove: drop every entry keyed `k`. -/
def treeRemove (k : Bytes) : List (Bytes × Bytes) → List (Bytes × Bytes)
  | [] => []
  | (k2, v2) :: rest =>
    if k == k2 then treeRemove k rest else (k2, v2) :: treeRemove k rest

/-- Ordered-tree point lookup. -/
def treeGet (k : Bytes) (t : List (Bytes × Bytes)) : Option Bytes :=
  (t.find? (fun e => e.1 == k)).map (fun e => e.2)

/-- The durable state of `BlockResyncManager`: the `resync.queue` tree
(keys `be(when) ++ hash`, values `hash`) and the `resync.errors` tree
(keys `hash`, values encoded `ErrorCounter`s). -/
structure ResyncState where
  queue : List (Bytes × Bytes)
  errors : List (Bytes × Bytes)
deriving DecidableEq

/-- Source `put_to_resync_at(hash, when)`: insert the queue entry keyed by
the 8-byte big-endian time followed by the 32-byte hash, with the hash as
value. -/
def put_to_resync_at (when : Nat) (hash : Bytes) (queue : List (Bytes × Bytes)) :
    List (Bytes × Bytes) :=
  treeInsert (u64_to_be_bytes when ++ hash) hash queue

/-- A primitive durable-tree operation performed by one iteration, in program
order: queue insert (`put_to_resync_at`), queue remove, errors insert, errors
remove. -/
inductive QOp where
  | qput (when : Nat) (hash : Bytes)
  | qremove (key : Bytes)
  | eput (hash : Bytes) (v : Bytes)
  | eremove (hash : Bytes)
deriving DecidableEq

/-- Replay one primitive operation on the durable state. -/
def applyOp (s : ResyncState) : QOp → ResyncState
  | .qput when hash => { s with queue := put_to_resync_at when hash s.queue }
  | .qremove k => { s with queue := treeRemove k s.queue }
  | .eput h v => { s with errors := treeInsert h v s.errors }
  | .eremove h => { s with errors := treeRemove h s.errors }

/-- Replay a list of primitive operations, left to right (program order). -/
def applyOps (s : ResyncState) (ops : List QOp) : ResyncState :=
  ops.foldl applyOp s

/-- Source struct `BusyBlock`: the claimed queue entry (full 40-byte key and
the 32-byte value). -/
structure BusyBlock where
  time_bytes : Bytes
  hash_bytes : Bytes
deriving DecidableEq

/-- Source `get_block_to_resync`: walk the queue in key order, return the
first entry whose key is not in the busy set, inserting that key into the
busy set before returning.  Returns the claimed entry (if any) and the
updated busy set. -/
def get_block_to_resync (queue : List (Bytes × Bytes)) (busy : List Bytes) :
    Option BusyBlock × List Bytes :=
  match queue.find? (fun e => !(busy.contains e.1)) with
  | some e => (some { time_bytes := e.1, hash_bytes := e.2 }, e.1 :: busy)
  | none => (none, busy)

/-- Source `impl Drop for BusyBlock`: remove the claimed key from the busy
set (runs on every exit path of the iteration). -/
def busyBlockDrop (bb : BusyBlock) (busy : List Bytes) : List Bytes :=
  busy.filter (fun k => !(k == bb.time_bytes))

/-- The `BlockRpc` reply variants `resync_block` distinguishes. -/
inductive BlockRpc where
  | needBlockReply (needed : Bool)
  | otherMessage
deriving DecidableEq

/-- The `needed` part of `check_block_status`: the refcount-derived
predicates consulted by `resync_block`. -/
structure NeededStatus where
  is_needed : Bool
  is_nonzero : Bool
  is_deletable : Bool
deriving DecidableEq

/-- Source struct `BlockStatus { exists, needed }`. -/
structure BlockStatus where
  exists_ : Bool
  needed : NeededStatus
deriving DecidableEq

/-- The distinguishable failure causes of `resync_block`. -/
inductive ResyncError where
  | statusError
  | noQuorum
  | rpcCallError
  | replyError
  | unexpectedMessage
  | readBlockError
  | putBlockError
  | deleteError
  | clearRcError
  | getRawBlockError
  | writeBlockError
deriving DecidableEq

/-- Result of `resync_block`: `Ok(())` or a failure cause. -/
inductive RBResult where
  | ok
  | fail (e : ResyncError)
deriving DecidableEq

/-- Whether a `resync_block` result is `Ok`. -/
def RBResult.isOk : RBResult → Bool
  | .ok => true
  | .fail _ => false

/-- An external call made by `resync_block`, recorded in program order. -/
inductive RBAction where
  | needBlockQuery (peers : List Nat)
  | readBlock
  | putBlock (peers : List Nat) (quorum : Nat)
  | deleteIfUnneeded
  | clearDeletedBlockRc
  | getRawBlock
  | writeBlock
deriving DecidableEq

/-- Oracle for the external collaborators consulted by one `resync_block`
call: the block status (`none` models an `Err` from `check_block_status`),
the replication layer, the `NeedBlockQuery` fan-out replies (`none` models a
failed `call_many`; an inner `none` models an errored reply), and the
success of each subsequent external call. -/
structure ResyncBlockEnv where
  status : Option BlockStatus
  write_nodes : List Nat
  write_quorum : Nat
  self_id : Nat
  need_block_resps : Option (List (Nat × Option BlockRpc))
  read_block_ok : Bool
  put_block_ok : Bool
  delete_ok : Bool
  clear_rc_ok : Bool
  get_raw_block_ok : Bool
  write_block_ok : Bool
deriving DecidableEq

/-- Result of folding the `NeedBlockQuery` replies. -/
inductive NeedNodes where
  | ok (nodes : List Nat)
  | fail (e : ResyncError)
deriving DecidableEq

/-- The reply-collection loop of `resync_block`: an errored reply or an
unexpected message variant aborts; a `NeedBlockReply(true)` sender is kept,
in reply order. -/
def collect_need_nodes : List (Nat × Option BlockRpc) → NeedNodes
  | [] => .ok []
  | (node, resp) :: rest =>
    match resp with
    | none => .fail .replyError
    | some (.needBlockReply needed) =>
      match collect_need_nodes rest with
      | .fail e => .fail e
      | .ok ns => .ok (if needed then node :: ns else ns)
    | some .otherMessage => .fail .unexpectedMessage

/-- Tail of the offload path: call `delete_if_unneeded`, and on its success
`clear_deleted_block_rc`; `acts` is the action trace so far. -/
def delete_and_clear (env : ResyncBlockEnv) (acts : List RBAction) :
    RBResult × List RBAction :=
  if env.delete_ok then
    if env.clear_rc_ok then (.ok, acts ++ [.deleteIfUnneeded, .clearDeletedBlockRc])
    else (.fail .clearRcError, acts ++ [.deleteIfUnneeded, .clearDeletedBlockRc])
  else (.fail .deleteError, acts ++ [.deleteIfUnneeded])

/-- The offload-and-delete branch of `resync_block` (`exists && is_deletable`):
quorum check on the full `write_nodes` list, removal of the local node id,
`NeedBlockQuery` fan-out, optional `PutBlock` to the nodes that need the
block (required quorum = their number), then delete and refcount cleanup. -/
def offload_delete (env : ResyncBlockEnv) : RBResult × List RBAction :=
  if env.write_nodes.length < env.write_quorum then (.fail .noQuorum, [])
  else
    match env.need_block_resps with
    | none =>
      (.fail .rpcCallError,
       [.needBlockQuery (env.write_nodes.filter (fun id => !(id == env.self_id)))])
    | some resps =>
      match collect_need_nodes resps with
      | .fail e =>
        (.fail e,
         [.needBlockQuery (env.write_nodes.filter (fun id => !(id == env.self_id)))])
      | .ok need_nodes =>
        if need_nodes.isEmpty then
          delete_and_clear env
            [.needBlockQuery (env.write_nodes.filter (fun id => !(id == env.self_id)))]
        else
          if !env.read_block_ok then
            (.fail .readBlockError,
             [.needBlockQuery (env.write_nodes.filter (fun id => !(id == env.self_id))),
              .readBlock])
          else if !env.put_block_ok then
            (.fail .putBlockError,
             [.needBlockQuery (env.write_nodes.filter (fun id => !(id == env.self_id))),
              .readBlock, .putBlock need_nodes need_nodes.length])
          else
            delete_and_clear env
              [.needBlockQuery (env.write_nodes.filter (fun id => !(id == env.self_id))),
               .readBlock, .putBlock need_nodes need_nodes.length]

/-- The fetch branch of `resync_block` (`is_nonzero && !exists`):
`rpc_get_raw_block` then `write_block`. -/
def fetch_missing (env : ResyncBlockEnv) (acts : List RBAction) :
    RBResult × List RBAction :=
  if !env.get_raw_block_ok then (.fail .getRawBlockError, acts ++ [.getRawBlock])
  else if !env.write_block_ok then
    (.fail .writeBlockError, acts ++ [.getRawBlock, .writeBlock])
  else (.ok, acts ++ [.getRawBlock, .writeBlock])

/-- Source `resync_block`: check the block status, run the offload branch
when `exists && is_deletable` (an error there aborts the call), then the
fetch branch when `is_nonzero && !exists`.  Returns the result and the trace
of external calls, in order. -/
def resync_block (env : ResyncBlockEnv) : RBResult × List RBAction :=
  match env.status with
  | none => (.fail .statusError, [])
  | some st =>
    match (if st.exists_ && st.needed.is_deletable then offload_delete env
           else (.ok, [])) with
    | (.fail e, acts) => (.fail e, acts)
    | (.ok, acts) =>
      if st.needed.is_nonzero && !st.exists_ then fetch_missing env acts
      else (.ok, acts)

/-- Source enum `ResyncIterResult` (`IdleFor` carries milliseconds;
`Duration::from_secs(10)` is `idleFor 10000`). -/
inductive ResyncIterResult where
  | busyDidSomething
  | busyDidNothing
  | idleFor (msec : Nat)
deriving DecidableEq

/-- The `err_counter` computation of the failure branch of `resync_iter`
(lines 262-265 of the source): `add1(t)` of the decoded stored counter when
one exists, else `new(t)`; `none` models the decode panic on a malformed
stored value. -/
def next_error_counter (errors : List (Bytes × Bytes)) (hash : Bytes) (t : Nat) :
    Option ErrorCounter :=
  match treeGet hash errors with
  | some ecb => (ErrorCounter.decode? ecb).map (fun ec => ec.add1 t)
  | none => some (ErrorCounter.new t)

/-- Bookkeeping after `resync_block` returned inside `resync_iter`:
on success remove the error counter and the queue entry; on failure store the
new counter, enqueue at its `next_try`, then remove the original queue entry.
Returns the result and the op trace; `none` models a decode panic. -/
def resync_iter_record (s : ResyncState) (block : BusyBlock) (hash : Bytes)
    (now : Nat) (ok : Bool) : Option (ResyncIterResult × List QOp) :=
  if ok then
    some (.busyDidSomething, [.eremove hash, .qremove block.time_bytes])
  else
    match next_error_counter s.errors hash ((now + 1) % U64) with
    | none => none
    | some ec2 =>
      some (.busyDidSomething,
        [.eput hash ec2.encode, .qput ec2.next_try hash, .qremove block.time_bytes])

/-- Source `resync_iter`: claim the first non-busy queue entry (none ⇒ idle
10 s); decode its due time (`none` models the slice panic on a short key);
when not yet due, idle for the difference; otherwise convert the value to a
hash (`none` models the `Hash::try_from` panic unless 32 bytes), consult the
error counter for a pending backoff (skip: re-enqueue at `next_try`, then
remove the original entry), else invoke `resync_block` and record its
outcome.  `clock` is the stream of `now_msec()` readings; the code reads the
clock exactly once, at `clock 0`. -/
def resync_iter (s : ResyncState) (busy : List Bytes) (clock : Nat → Nat)
    (env : ResyncBlockEnv) : Option (ResyncIterResult × List QOp) :=
  match (get_block_to_resync s.queue busy).1 with
  | none => some (.idleFor 10000, [])
  | some block =>
    if block.time_bytes.length < 8 then none
    else
      if u64_from_be_bytes (block.time_bytes.take 8) ≤ clock 0 then
        if block.hash_bytes.length == 32 then
          match treeGet block.hash_bytes s.errors with
          | some ecb =>
            match ErrorCounter.decode? ecb with
            | none => none
            | some ec =>
              if clock 0 < ec.next_try then
                some (.busyDidNothing,
                  [.qput ec.next_try block.hash_bytes, .qremove block.time_bytes])
              else
                resync_iter_record s block block.hash_bytes (clock 0)
                  (resync_block env).1.isOk
          | none =>
            resync_iter_record s block block.hash_bytes (clock 0)
              (resync_block env).1.isOk
        else none
      else
        some (.idleFor (u64_from_be_bytes (block.time_bytes.take 8) - clock 0), [])

/-- Source constant `MAX_RESYNC_WORKERS = 4`. -/
def MAX_RESYNC_WORKERS : Nat := 4

/-- Source struct `ResyncPersistedConfig`. -/
structure ResyncPersistedConfig where
  n_workers : Nat
  tranquility : Nat
deriving DecidableEq

/-- Configuration state: the persisted file content (if any) and the
in-memory `ArcSwap` snapshot. -/
structure ConfigState where
  file : Option ResyncPersistedConfig
  snapshot : ResyncPersistedConfig
deriving DecidableEq

/-- Result of a configuration update. -/
inductive ConfigResult where
  | ok
  | invalidArg
  | persistError
deriving DecidableEq

/-- Source `update_persisted(update)`: apply the mutation to a copy of the
snapshot, persist it (`persist_ok` is the oracle for `save_async`), and only
on success publish the new snapshot.  A persistence failure leaves both the
file and the snapshot unchanged. -/
def update_persisted (f : ResyncPersistedConfig → ResyncPersistedConfig)
    (persist_ok : Bool) (s : ConfigState) : ConfigResult × ConfigState :=
  if persist_ok then
    (.ok, { file := some (f s.snapshot), snapshot := f s.snapshot })
  else (.persistError, s)

/-- Source `set_n_workers(n)`: reject `n` outside `1..=MAX_RESYNC_WORKERS`
before touching any state, else update the persisted configuration. -/
def set_n_workers (n : Nat) (persist_ok : Bool) (s : ConfigState) :
    ConfigResult × ConfigState :=
  if 1 ≤ n ∧ n ≤ MAX_RESYNC_WORKERS then
    update_persisted (fun cfg => { cfg with n_workers := n }) persist_ok s
  else (.invalidArg, s)

/-! Concrete inputs used by witnesses and counterexamples. -/

/-- A 32-byte block hash used in concrete scenarios. -/
def cexHash : Bytes := List.replicate 32 5

/-- A clock stream whose start-of-iteration reading is 100 and whose next
reading (e.g. after `resync_block` returns) is 500. -/
def cexClock : Nat → Nat := fun i => if i = 0 then 100 else 500

/-- A constant clock stream reading 100. -/
def clk100 : Nat → Nat := fun _ => 100

/-- A constant clock stream reading 110. -/
def clk110 : Nat → Nat := fun _ => 110

/-- A constant clock stream reading 20. -/
def clk20 : Nat → Nat := fun _ => 20

/-- State with one queue entry for `cexHash` due at 100 and no errors. -/
def cexState : ResyncState :=
  { queue := [(u64_to_be_bytes 100 ++ cexHash, cexHash)], errors := [] }

/-- State with one queue entry for `cexHash` due at 100 and a stored counter
with 2 errors, last try at 90 (so `next_try = 120090`). -/
def cexErrState : ResyncState :=
  { queue := [(u64_to_be_bytes 100 ++ cexHash, cexHash)],
    errors := [(cexHash, ErrorCounter.encode { errors := 2, last_try := 90 })] }

/-- An environment whose `check_block_status` fails, making `resync_block`
fail immediately. -/
def failEnv : ResyncBlockEnv :=
  { status := none, write_nodes := [], write_quorum := 0, self_id := 0,
    need_block_resps := none, read_block_ok := false, put_block_ok := false,
    delete_ok := false, clear_rc_ok := false, get_raw_block_ok := false,
    write_block_ok := false }

/-- An environment for a block that exists, is deletable, but has fewer
write nodes than the write quorum. -/
def noQuorumEnv : ResyncBlockEnv :=
  { status := some { exists_ := true,
                     needed := { is_needed := false, is_nonzero := false,
                                 is_deletable := true } },
    write_nodes := [1], write_quorum := 2, self_id := 0,
    need_block_resps := some [], read_block_ok := true, put_block_ok := true,
    delete_ok := true, clear_rc_ok := true, get_raw_block_ok := true,
    write_block_ok := true }

/-- An environment for a successful offload: nodes 0 (self), 1, 2; quorum 2;
node 1 needs the block, node 2 does not. -/
def offloadEnv : ResyncBlockEnv :=
  { status := some { exists_ := true,
                     needed := { is_needed := false, is_nonzero := false,
                                 is_deletable := true } },
    write_nodes := [0, 1, 2], write_quorum := 2, self_id := 0,
    need_block_resps := some [(1, some (.needBlockReply true)),
                              (2, some (.needBlockReply false))],
    read_block_ok := true, put_block_ok := true, delete_ok := true,
    clear_rc_ok := true, get_raw_block_ok := true, write_block_ok := true }

/-! Helper lemmas. -/

lemma U64_pos : 0 < U64 := by norm_num [U64]

lemma u64_roundtrip (n : Nat) : u64_from_be_bytes (u64_to_be_bytes n) = n % U64 := by
  simp only [u64_from_be_bytes, u64_to_be_bytes, List.foldl_cons, List.foldl_nil, U64]
  omega

lemma take_append_be (n : Nat) (hash : Bytes) :
    (u64_to_be_bytes n ++ hash).take 8 = u64_to_be_bytes n := rfl

lemma next_try_lt_U64 (c : ErrorCounter) : c.next_try < U64 :=
  Nat.mod_lt _ U64_pos

/-! Theorems for the claims. -/

/-- C6: for every `ErrorCounter` with `errors = n`, `1 ≤ n < 2^64`, the retry
delay is `60000 * 2^min(n-1, 6)` milliseconds (so 1, 2, 4, 8, 16, 32, 64
minutes), and `next_try = last_try + delay` in unsigned 64-bit (wrapping)
arithmetic. -/
theorem delay_msec_next_try_formula (c : ErrorCounter)
    (h1 : 1 ≤ c.errors) (h2 : c.errors < U64) :
    c.delay_msec = 60000 * 2 ^ min (c.errors - 1) 6
      ∧ c.next_try = (c.last_try + c.delay_msec) % U64 := by
  constructor
  · have hsub : (c.errors + (U64 - 1)) % U64 = c.errors - 1 := by
      simp only [U64] at h2 ⊢
      omega
    simp only [ErrorCounter.delay_msec, RESYNC_RETRY_DELAY_MSEC,
      RESYNC_RETRY_DELAY_MAX_BACKOFF_POWER, hsub, Nat.shiftLeft_eq]
    have hlt : 60000 * 2 ^ min (c.errors - 1) 6 < U64 := by
      calc 60000 * 2 ^ min (c.errors - 1) 6
          ≤ 60000 * 2 ^ 6 :=
            Nat.mul_le_mul_left _ (Nat.pow_le_pow_right (by norm_num) (min_le_right _ _))
        _ < U64 := by norm_num [U64]
    exact Nat.mod_eq_of_lt hlt
  · rfl

/-- Witness for C6 at the counter `{errors := 3, last_try := 1000}`. -/
theorem delay_msec_next_try_formula_witness :
    ErrorCounter.delay_msec { errors := 3, last_try := 1000 }
        = 60000 * 2 ^ min (3 - 1) 6
      ∧ ErrorCounter.next_try { errors := 3, last_try := 1000 }
        = (1000 + ErrorCounter.delay_msec { errors := 3, last_try := 1000 }) % U64 :=
  delay_msec_next_try_formula { errors := 3, last_try := 1000 } (by decide) (by decide)

/-- C10: `ErrorCounter.decode` is defined (does not panic) exactly on inputs
of length at least 16: it reads bytes `0..8` and `8..16`, and every shorter
input makes the slice indexing fail. -/
theorem decode_defined_iff_len16 (data : Bytes) :
    (ErrorCounter.decode? data).isSome = true ↔ 16 ≤ data.length := by
  simp only [ErrorCounter.decode?]
  split <;> simp_all

/-- Witness for C10 at a 16-byte input. -/
theorem decode_defined_iff_len16_witness :
    (ErrorCounter.decode? (List.replicate 16 0)).isSome = true
      ↔ 16 ≤ (List.replicate 16 0 : Bytes).length :=
  decode_defined_iff_len16 (List.replicate 16 0)

/-- C7: `set_n_workers n` rejects `n` outside `1..=4` synchronously with an
invalid-argument error and no state change (neither the persisted file nor
the in-memory snapshot); it succeeds only for `1 ≤ n ≤ 4`, and does succeed
there whenever persisting succeeds, storing the updated configuration. -/
theorem set_n_workers_valid_range (n : Nat) (persist_ok : Bool) (s : ConfigState) :
    (¬(1 ≤ n ∧ n ≤ MAX_RESYNC_WORKERS) →
      set_n_workers n persist_ok s = (.invalidArg, s))
    ∧ ((set_n_workers n persist_ok s).1 = .ok → 1 ≤ n ∧ n ≤ MAX_RESYNC_WORKERS)
    ∧ (1 ≤ n ∧ n ≤ MAX_RESYNC_WORKERS → persist_ok = true →
        set_n_workers n persist_ok s
          = (.ok, { file := some { s.snapshot with n_workers := n },
                    snapshot := { s.snapshot with n_workers := n } })) := by
  refine ⟨?_, ?_, ?_⟩
  · intro h
    simp [set_n_workers, h]
  · intro h
    by_contra hn
    simp [set_n_workers, hn] at h
  · intro h hp
    simp [set_n_workers, h, update_persisted, hp]

/-- Witness for C7: `set_n_workers 5` fails and changes nothing. -/
theorem set_n_workers_valid_range_witness :
    set_n_workers 5 true
        { file := none, snapshot := { n_workers := 1, tranquility := 2 } }
      = (.invalidArg, { file := none, snapshot := { n_workers := 1, tranquility := 2 } }) :=
  (set_n_workers_valid_range 5 true
    { file := none, snapshot := { n_workers := 1, tranquility := 2 } }).1 (by decide)

/-- C3: when the block exists and is deletable but `write_nodes` (counted
before removing the local node id) is smaller than the write quorum,
`resync_block` fails with the no-quorum error having issued no RPC and made
no external call at all — in particular `delete_if_unneeded` is never
called. -/
theorem resync_block_no_quorum (env : ResyncBlockEnv) (st : BlockStatus)
    (hst : env.status = some st) (hex : st.exists_ = true)
    (hdel : st.needed.is_deletable = true)
    (hq : env.write_nodes.length < env.write_quorum) :
    resync_block env = (.fail .noQuorum, []) := by
  simp [resync_block, hst, hex, hdel, offload_delete, hq]

/-- Witness for C3 on `noQuorumEnv` (1 write node, quorum 2). -/
theorem resync_block_no_quorum_witness :
    resync_block noQuorumEnv = (.fail .noQuorum, []) :=
  resync_block_no_quorum noQuorumEnv
    { exists_ := true,
      needed := { is_needed := false, is_nonzero := false, is_deletable := true } }
    rfl rfl rfl (by decide)

/-- C9: the busy-set protocol. A successful `get_block_to_resync` returns the
first queue entry whose key is not busy, and has inserted that key into the
busy set before returning; while the claim is held no other call (over any
queue contents) can return the same key; dropping the claim removes exactly
that key, restoring the busy set. -/
theorem get_block_to_resync_busy_protocol (queue : List (Bytes × Bytes))
    (busy : List Bytes) (bb : BusyBlock)
    (h : (get_block_to_resync queue busy).1 = some bb) :
    queue.find? (fun e => !(busy.contains e.1)) = some (bb.time_bytes, bb.hash_bytes)
    ∧ busy.contains bb.time_bytes = false
    ∧ (get_block_to_resync queue busy).2 = bb.time_bytes :: busy
    ∧ (∀ queue2 bb2,
        (get_block_to_resync queue2 ((get_block_to_resync queue busy).2)).1 = some bb2 →
        bb2.time_bytes ≠ bb.time_bytes)
    ∧ busyBlockDrop bb ((get_block_to_resync queue busy).2) = busy := by
  unfold get_block_to_resync at h
  cases hf : queue.find? (fun e => !(busy.contains e.1)) with
  | none => rw [hf] at h; simp at h
  | some e =>
    rw [hf] at h
    simp only [Option.some.injEq] at h
    subst h
    have hc : busy.contains e.1 = false := by simpa using List.find?_some hf
    have hbusy2 : (get_block_to_resync queue busy).2 = e.1 :: busy := by
      unfold get_block_to_resync
      rw [hf]
    refine ⟨rfl, hc, hbusy2, ?_, ?_⟩
    · intro queue2 bb2 h2
      rw [hbusy2] at h2
      unfold get_block_to_resync at h2
      cases hf2 : queue2.find? (fun x => !((e.1 :: busy).contains x.1)) with
      | none => rw [hf2] at h2; simp at h2
      | some e2 =>
        rw [hf2] at h2
        simp only [Option.some.injEq] at h2
        have hp2 : (e.1 :: busy).contains e2.1 = false := by
          simpa using List.find?_some hf2
        simp only [List.contains_cons, Bool.or_eq_false_iff] at hp2
        have : e2.1 ≠ e.1 := by simpa using hp2.1
        rw [← h2]
        simpa using this
    · rw [hbusy2]
      unfold busyBlockDrop
      have hne : e.1 ∉ busy := by simpa using hc
      simp only [List.filter_cons]
      have : (!(e.1 == e.1)) = false := by simp
      rw [this]
      simp only [Bool.false_eq_true, if_false]
      apply List.filter_eq_self.mpr
      intro a ha
      simp only [Bool.not_eq_true', beq_eq_false_iff_ne]
      rintro rfl
      exact hne ha

/-- Witness for C9: claiming the single entry of a one-entry queue and
dropping the claim restores the empty busy set. -/
theorem get_block_to_resync_busy_protocol_witness :
    busyBlockDrop { time_bytes := [1], hash_bytes := [2] }
        ((get_block_to_resync [([1], [2])] []).2) = [] :=
  (get_block_to_resync_busy_protocol [([1], [2])] []
    { time_bytes := [1], hash_bytes := [2] } (by decide)).2.2.2.2

lemma resync_iter_skip_run (s : ResyncState) (busy : List Bytes) (clock : Nat → Nat)
    (env : ResyncBlockEnv) (bb : BusyBlock) (ecb : Bytes) (ec : ErrorCounter)
    (hget : (get_block_to_resync s.queue busy).1 = some bb)
    (h8 : 8 ≤ bb.time_bytes.length)
    (h32 : bb.hash_bytes.length = 32)
    (hdue : u64_from_be_bytes (bb.time_bytes.take 8) ≤ clock 0)
    (hecb : treeGet bb.hash_bytes s.errors = some ecb)
    (hec : ErrorCounter.decode? ecb = some ec)
    (hnt : clock 0 < ec.next_try) :
    resync_iter s busy clock env
      = some (.busyDidNothing,
          [.qput ec.next_try bb.hash_bytes, .qremove bb.time_bytes]) := by
  have h8' : ¬ bb.time_bytes.length < 8 := by omega
  simp [resync_iter, hget, h8', hdue, h32, hecb, hec, hnt]

lemma resync_iter_fail_run (s : ResyncState) (busy : List Bytes) (clock : Nat → Nat)
    (env : ResyncBlockEnv) (bb : BusyBlock) (ec2 : ErrorCounter)
    (hget : (get_block_to_resync s.queue busy).1 = some bb)
    (h8 : 8 ≤ bb.time_bytes.length)
    (h32 : bb.hash_bytes.length = 32)
    (hdue : u64_from_be_bytes (bb.time_bytes.take 8) ≤ clock 0)
    (herr : ∀ ecb, treeGet bb.hash_bytes s.errors = some ecb →
        ∃ ec, ErrorCounter.decode? ecb = some ec ∧ ec.next_try ≤ clock 0)
    (hfail : (resync_block env).1.isOk = false)
    (hec2 : next_error_counter s.errors bb.hash_bytes ((clock 0 + 1) % U64) = some ec2) :
    resync_iter s busy clock env
      = some (.busyDidSomething,
          [.eput bb.hash_bytes ec2.encode, .qput ec2.next_try bb.hash_bytes,
           .qremove bb.time_bytes]) := by
  have h8' : ¬ bb.time_bytes.length < 8 := by omega
  cases htg : treeGet bb.hash_bytes s.errors with
  | none =>
    simp [resync_iter, hget, h8', hdue, h32, htg, resync_iter_record, hfail, hec2]
  | some ecb =>
    obtain ⟨ec, hdec, hle⟩ := herr ecb htg
    have hnlt : ¬ clock 0 < ec.next_try := by omega
    simp [resync_iter, hget, h8', hdue, h32, htg, hdec, hnlt, resync_iter_record,
      hfail, hec2]

lemma next_error_counter_last_try (errors : List (Bytes × Bytes)) (hash : Bytes)
    (t : Nat) (ec2 : ErrorCounter)
    (hec2 : next_error_counter errors hash t = some ec2) :
    ec2.last_try = t := by
  unfold next_error_counter at hec2
  cases htg : treeGet hash errors with
  | none =>
    rw [htg] at hec2
    simp only [Option.some.injEq] at hec2
    rw [← hec2]
    rfl
  | some ecb =>
    rw [htg] at hec2
    rw [Option.map_eq_some'] at hec2
    obtain ⟨ec, _, hadd⟩ := hec2
    rw [← hadd]
    rfl

lemma next_error_counter_errors_pos (errors : List (Bytes × Bytes)) (hash : Bytes)
    (t : Nat) (ec2 : ErrorCounter)
    (hwrap : ∀ ecb ec, treeGet hash errors = some ecb →
        ErrorCounter.decode? ecb = some ec → ec.errors + 1 < U64)
    (hec2 : next_error_counter errors hash t = some ec2) :
    1 ≤ ec2.errors := by
  unfold next_error_counter at hec2
  cases htg : treeGet hash errors with
  | none =>
    rw [htg] at hec2
    simp only [Option.some.injEq] at hec2
    rw [← hec2]
    exact Nat.le_refl 1
  | some ecb =>
    rw [htg] at hec2
    rw [Option.map_eq_some'] at hec2
    obtain ⟨ec, hdec, hadd⟩ := hec2
    have hw := hwrap ecb ec htg hdec
    rw [← hadd]
    simp only [ErrorCounter.add1]
    rw [Nat.mod_eq_of_lt hw]
    omega

lemma resync_iter_clock_congr (s : ResyncState) (busy : List Bytes)
    (env : ResyncBlockEnv) (clock clock2 : Nat → Nat) (h : clock 0 = clock2 0) :
    resync_iter s busy clock env = resync_iter s busy clock2 env := by
  unfold resync_iter
  rw [h]

/-- C1: a failing iteration on a due entry `(t0, b)` (no pending backoff)
stores `add1(now+1)` of the existing counter, else `new(now+1)` — so
`errors ≥ 1` and `last_try = now + 1` — then enqueues `b` at the counter's
`next_try` before removing the original key, and returns `DidWork`
(`busyDidSomething`); `now` is the clock read at the start of the
iteration. -/
theorem resync_iter_failure_path (s : ResyncState) (busy : List Bytes)
    (clock : Nat → Nat) (env : ResyncBlockEnv) (bb : BusyBlock) (ec2 : ErrorCounter)
    (hget : (get_block_to_resync s.queue busy).1 = some bb)
    (h8 : 8 ≤ bb.time_bytes.length)
    (h32 : bb.hash_bytes.length = 32)
    (hdue : u64_from_be_bytes (bb.time_bytes.take 8) ≤ clock 0)
    (herr : ∀ ecb, treeGet bb.hash_bytes s.errors = some ecb →
        ∃ ec, ErrorCounter.decode? ecb = some ec ∧ ec.next_try ≤ clock 0)
    (hwrap : ∀ ecb ec, treeGet bb.hash_bytes s.errors = some ecb →
        ErrorCounter.decode? ecb = some ec → ec.errors + 1 < U64)
    (hfail : (resync_block env).1.isOk = false)
    (hnow : clock 0 + 1 < U64)
    (hec2 : next_error_counter s.errors bb.hash_bytes ((clock 0 + 1) % U64) = some ec2) :
    resync_iter s busy clock env
      = some (.busyDidSomething,
          [.eput bb.hash_bytes ec2.encode, .qput ec2.next_try bb.hash_bytes,
           .qremove bb.time_bytes])
    ∧ 1 ≤ ec2.errors ∧ ec2.last_try = clock 0 + 1 := by
  refine ⟨resync_iter_fail_run s busy clock env bb ec2 hget h8 h32 hdue herr hfail hec2,
    next_error_counter_errors_pos _ _ _ _ hwrap hec2, ?_⟩
  rw [next_error_counter_last_try _ _ _ _ hec2]
  exact Nat.mod_eq_of_lt hnow

/-- Witness for C1: a failing iteration at clock 100 on a fresh block stores
the counter `{errors := 1, last_try := 101}` and re-enqueues before removing. -/
theorem resync_iter_failure_path_witness :
    resync_iter cexState [] clk100 failEnv
      = some (.busyDidSomething,
          [.eput cexHash (ErrorCounter.encode { errors := 1, last_try := 101 }),
           .qput (ErrorCounter.next_try { errors := 1, last_try := 101 }) cexHash,
           .qremove (u64_to_be_bytes 100 ++ cexHash)])
    ∧ 1 ≤ ErrorCounter.errors { errors := 1, last_try := 101 }
    ∧ ErrorCounter.last_try { errors := 1, last_try := 101 } = clk100 0 + 1 :=
  resync_iter_failure_path cexState [] clk100 failEnv
    { time_bytes := u64_to_be_bytes 100 ++ cexHash, hash_bytes := cexHash }
    { errors := 1, last_try := 101 }
    (by decide) (by decide) (by decide) (by decide)
    (by intro ecb h; simp [cexState, treeGet] at h)
    (by intro ecb ec h; simp [cexState, treeGet] at h)
    (by decide) (by decide) (by decide)

/-- C2: an iteration on a due entry `(t0, b)` whose stored counter has
`next_try > now` re-enqueues `b` at `next_try` and only afterwards removes
the original key, returns `Skipped` (`busyDidNothing`) independently of the
`resync_block` environment (which is never invoked) without touching the
ErrorStore, and the inserted key differs from the removed one because
`next_try > now ≥ t0`. -/
theorem resync_iter_backoff_skip (s : ResyncState) (busy : List Bytes)
    (clock : Nat → Nat) (env : ResyncBlockEnv) (bb : BusyBlock) (ecb : Bytes)
    (ec : ErrorCounter)
    (hget : (get_block_to_resync s.queue busy).1 = some bb)
    (h8 : 8 ≤ bb.time_bytes.length)
    (h32 : bb.hash_bytes.length = 32)
    (hdue : u64_from_be_bytes (bb.time_bytes.take 8) ≤ clock 0)
    (hecb : treeGet bb.hash_bytes s.errors = some ecb)
    (hec : ErrorCounter.decode? ecb = some ec)
    (hnt : clock 0 < ec.next_try) :
    resync_iter s busy clock env
      = some (.busyDidNothing,
          [.qput ec.next_try bb.hash_bytes, .qremove bb.time_bytes])
    ∧ u64_to_be_bytes ec.next_try ++ bb.hash_bytes ≠ bb.time_bytes
    ∧ (∀ env2, resync_iter s busy clock env2
          = some (.busyDidNothing,
              [.qput ec.next_try bb.hash_bytes, .qremove bb.time_bytes])) := by
  refine ⟨resync_iter_skip_run s busy clock env bb ecb ec hget h8 h32 hdue hecb hec hnt,
    ?_,
    fun env2 => resync_iter_skip_run s busy clock env2 bb ecb ec hget h8 h32 hdue hecb hec hnt⟩
  intro he
  have h1 : u64_from_be_bytes (bb.time_bytes.take 8) = ec.next_try := by
    rw [← he, take_append_be, u64_roundtrip, Nat.mod_eq_of_lt (next_try_lt_U64 ec)]
  omega

/-- Witness for C2: a due entry at 100, counter `{errors := 2, last_try := 90}`
(`next_try = 120090`), clock 110: the entry is re-enqueued at 120090 and the
iteration is `Skipped`. -/
theorem resync_iter_backoff_skip_witness :
    resync_iter cexErrState [] clk110 failEnv
      = some (.busyDidNothing,
          [.qput (ErrorCounter.next_try { errors := 2, last_try := 90 }) cexHash,
           .qremove (u64_to_be_bytes 100 ++ cexHash)])
    ∧ u64_to_be_bytes (ErrorCounter.next_try { errors := 2, last_try := 90 }) ++ cexHash
        ≠ u64_to_be_bytes 100 ++ cexHash
    ∧ (∀ env2, resync_iter cexErrState [] clk110 env2
          = some (.busyDidNothing,
              [.qput (ErrorCounter.next_try { errors := 2, last_try := 90 }) cexHash,
               .qremove (u64_to_be_bytes 100 ++ cexHash)])) :=
  resync_iter_backoff_skip cexErrState [] clk110 failEnv
    { time_bytes := u64_to_be_bytes 100 ++ cexHash, hash_bytes := cexHash }
    (ErrorCounter.encode { errors := 2, last_try := 90 })
    { errors := 2, last_try := 90 }
    (by decide) (by decide) (by decide) (by decide) (by decide) (by decide) (by decide)

/-- C4: when the first unclaimed queue entry is due at `when > now` the
iteration returns `IdleFor(when − now)` performing no tree operation, and
when no unclaimed entry exists it returns `IdleFor(10 s)`. -/
theorem resync_iter_idle_cases (s : ResyncState) (busy : List Bytes)
    (clock : Nat → Nat) (env : ResyncBlockEnv) :
    ((get_block_to_resync s.queue busy).1 = none →
      resync_iter s busy clock env = some (.idleFor 10000, []))
    ∧ (∀ bb, (get_block_to_resync s.queue busy).1 = some bb →
        8 ≤ bb.time_bytes.length →
        clock 0 < u64_from_be_bytes (bb.time_bytes.take 8) →
        resync_iter s busy clock env
          = some (.idleFor (u64_from_be_bytes (bb.time_bytes.take 8) - clock 0), [])) := by
  constructor
  · intro h
    simp [resync_iter, h]
  · intro bb h h8 hlt
    have h8' : ¬ bb.time_bytes.length < 8 := by omega
    have hd : ¬ u64_from_be_bytes (bb.time_bytes.take 8) ≤ clock 0 := by omega
    simp [resync_iter, h, h8', hd]

/-- Witness for C4: an empty queue idles for 10 s; a single entry due at 50
iterated at clock 20 idles for the difference. -/
theorem resync_iter_idle_cases_witness :
    resync_iter { queue := [], errors := [] } [] clk20 failEnv
      = some (.idleFor 10000, [])
    ∧ resync_iter { queue := [(u64_to_be_bytes 50 ++ cexHash, cexHash)], errors := [] }
        [] clk20 failEnv
      = some (.idleFor (u64_from_be_bytes ((u64_to_be_bytes 50 ++ cexHash).take 8)
          - clk20 0), []) :=
  ⟨(resync_iter_idle_cases { queue := [], errors := [] } [] clk20 failEnv).1 (by decide),
   (resync_iter_idle_cases
      { queue := [(u64_to_be_bytes 50 ++ cexHash, cexHash)], errors := [] }
      [] clk20 failEnv).2
     { time_bytes := u64_to_be_bytes 50 ++ cexHash, hash_bytes := cexHash }
     (by decide) (by decide) (by decide)⟩

/-- C5 counterexample: a failing iteration whose start-of-iteration clock
reading is 100 while the next clock reading (the one an observer would take
after `resync_block` returns, `cexClock 1 = 500`) is 500, stores
`last_try = 101 = start + 1`, not the post-return reading 500. -/
theorem resync_iter_last_try_cex :
    resync_iter cexState [] cexClock failEnv
      = some (.busyDidSomething,
          [.eput cexHash (ErrorCounter.encode { errors := 1, last_try := 101 }),
           .qput (ErrorCounter.next_try { errors := 1, last_try := 101 }) cexHash,
           .qremove (u64_to_be_bytes 100 ++ cexHash)])
    ∧ cexClock 1 = 500
    ∧ ErrorCounter.last_try { errors := 1, last_try := 101 } ≠ cexClock 1 := by
  refine ⟨by decide, rfl, by decide⟩

/-- C5 corrected: the `last_try` stored by a failing iteration is the
start-of-iteration clock reading plus one — the attempt's start time, not a
reading taken after `resync_block` returns: the iteration's outcome depends
only on `clock 0` (it never reads the clock again), and it stores
`clock 0 + 1`. -/
theorem resync_iter_last_try_from_start (s : ResyncState) (busy : List Bytes)
    (env : ResyncBlockEnv) (clock clock2 : Nat → Nat) (bb : BusyBlock)
    (ec2 : ErrorCounter)
    (hcl : clock 0 = clock2 0)
    (hget : (get_block_to_resync s.queue busy).1 = some bb)
    (h8 : 8 ≤ bb.time_bytes.length)
    (h32 : bb.hash_bytes.length = 32)
    (hdue : u64_from_be_bytes (bb.time_bytes.take 8) ≤ clock 0)
    (herr : ∀ ecb, treeGet bb.hash_bytes s.errors = some ecb →
        ∃ ec, ErrorCounter.decode? ecb = some ec ∧ ec.next_try ≤ clock 0)
    (hfail : (resync_block env).1.isOk = false)
    (hnow : clock 0 + 1 < U64)
    (hec2 : next_error_counter s.errors bb.hash_bytes ((clock 0 + 1) % U64) = some ec2) :
    resync_iter s busy clock env = resync_iter s busy clock2 env
    ∧ resync_iter s busy clock env
        = some (.busyDidSomething,
            [.eput bb.hash_bytes ec2.encode, .qput ec2.next_try bb.hash_bytes,
             .qremove bb.time_bytes])
    ∧ ec2.last_try = clock 0 + 1 := by
  refine ⟨resync_iter_clock_congr s busy env clock clock2 hcl,
    resync_iter_fail_run s busy clock env bb ec2 hget h8 h32 hdue herr hfail hec2, ?_⟩
  rw [next_error_counter_last_try _ _ _ _ hec2]
  exact Nat.mod_eq_of_lt hnow

/-- Witness for the corrected C5: with the two-reading clock `cexClock`
(100 then 500) the failing iteration behaves as with the constant clock 100
and stores `last_try = cexClock 0 + 1 = 101`. -/
theorem resync_iter_last_try_from_start_witness :
    resync_iter cexState [] cexClock failEnv = resync_iter cexState [] clk100 failEnv
    ∧ resync_iter cexState [] cexClock failEnv
        = some (.busyDidSomething,
            [.eput cexHash (ErrorCounter.encode { errors := 1, last_try := 101 }),
             .qput (ErrorCounter.next_try { errors := 1, last_try := 101 }) cexHash,
             .qremove (u64_to_be_bytes 100 ++ cexHash)])
    ∧ ErrorCounter.last_try { errors := 1, last_try := 101 } = cexClock 0 + 1 :=
  resync_iter_last_try_from_start cexState [] failEnv cexClock clk100
    { time_bytes := u64_to_be_bytes 100 ++ cexHash, hash_bytes := cexHash }
    { errors := 1, last_try := 101 }
    (by decide) (by decide) (by decide) (by decide) (by decide)
    (by intro ecb h; simp [cexState, treeGet] at h)
    (by decide) (by decide) (by decide)

/-- C8: in the offload path with quorum satisfied and all replies parsed,
let N be the peers that answered `NeedBlockReply(true)`.  If N is empty no
`PutBlock` is issued yet `delete_if_unneeded` and then
`clear_deleted_block_rc` are still called, in that order; if N is non-empty
every `PutBlock` issued goes exactly to N with required quorum `|N|`, the
delete happens only if the block read and the `PutBlock` call succeed, and
on success the full trace is query, read, `PutBlock(N, |N|)`, delete,
clear. -/
theorem resync_block_offload_fanout (env : ResyncBlockEnv) (st : BlockStatus)
    (resps : List (Nat × Option BlockRpc)) (need_nodes : List Nat)
    (hst : env.status = some st) (hex : st.exists_ = true)
    (hdel : st.needed.is_deletable = true)
    (hq : env.write_quorum ≤ env.write_nodes.length)
    (hre : env.need_block_resps = some resps)
    (hN : collect_need_nodes resps = .ok need_nodes)
    (hdelok : env.delete_ok = true) :
    (need_nodes = [] →
      resync_block env
        = ((if env.clear_rc_ok then RBResult.ok else .fail .clearRcError),
           [.needBlockQuery (env.write_nodes.filter (fun id => !(id == env.self_id))),
            .deleteIfUnneeded, .clearDeletedBlockRc]))
    ∧ (need_nodes ≠ [] →
        (∀ ps q, RBAction.putBlock ps q ∈ (resync_block env).2 →
            ps = need_nodes ∧ q = need_nodes.length)
        ∧ (RBAction.deleteIfUnneeded ∈ (resync_block env).2 →
            env.read_block_ok = true ∧ env.put_block_ok = true)
        ∧ (env.read_block_ok = true → env.put_block_ok = true →
            resync_block env
              = ((if env.clear_rc_ok then RBResult.ok else .fail .clearRcError),
                 [.needBlockQuery
                    (env.write_nodes.filter (fun id => !(id == env.self_id))),
                  .readBlock, .putBlock need_nodes need_nodes.length,
                  .deleteIfUnneeded, .clearDeletedBlockRc]))) := by
  have hq' : ¬ env.write_nodes.length < env.write_quorum := by omega
  constructor
  · intro hNe
    subst hNe
    rcases hcr : env.clear_rc_ok with _ | _ <;>
      simp [resync_block, hst, hex, hdel, offload_delete, hq', hre, hN,
        delete_and_clear, hdelok, hcr]
  · intro hne
    have hisEmpty : need_nodes.isEmpty = false := by
      cases need_nodes with
      | nil => exact absurd rfl hne
      | cons a l => rfl
    refine ⟨?_, ?_, ?_⟩
    · intro ps q hmem
      rcases hrb : env.read_block_ok with _ | _
      · simp [resync_block, hst, hex, hdel, offload_delete, hq', hre, hN,
          hisEmpty, hrb] at hmem
      · rcases hpb : env.put_block_ok with _ | _
        · simp [resync_block, hst, hex, hdel, offload_delete, hq', hre, hN,
            hisEmpty, hrb, hpb] at hmem
          exact hmem
        · rcases hcr : env.clear_rc_ok with _ | _ <;>
          · simp [resync_block, hst, hex, hdel, offload_delete, hq', hre, hN,
              hisEmpty, hrb, hpb, delete_and_clear, hdelok, hcr] at hmem
            exact hmem
    · intro hmem
      rcases hrb : env.read_block_ok with _ | _
      · simp [resync_block, hst, hex, hdel, offload_delete, hq', hre, hN,
          hisEmpty, hrb] at hmem
      · rcases hpb : env.put_block_ok with _ | _
        · simp [resync_block, hst, hex, hdel, offload_delete, hq', hre, hN,
            hisEmpty, hrb, hpb] at hmem
        · exact ⟨rfl, rfl⟩
    · intro hrb hpb
      rcases hcr : env.clear_rc_ok with _ | _ <;>
        simp [resync_block, hst, hex, hdel, offload_delete, hq', hre, hN,
          hisEmpty, hrb, hpb, delete_and_clear, hdelok, hcr]

/-- Witness for C8 on `offloadEnv`: node 1 needs the block, so `PutBlock`
goes to `[1]` with quorum 1, followed by the delete and refcount cleanup. -/
theorem resync_block_offload_fanout_witness :
    resync_block offloadEnv
      = (RBResult.ok,
         [.needBlockQuery [1, 2], .readBlock, .putBlock [1] 1,
          .deleteIfUnneeded, .clearDeletedBlockRc]) :=
  ((resync_block_offload_fanout offloadEnv
      { exists_ := true,
        needed := { is_needed := false, is_nonzero := false, is_deletable := true } }
      [(1, some (.needBlockReply true)), (2, some (.needBlockReply false))] [1]
      rfl rfl rfl (by decide) rfl (by decide) rfl).2 (by decide)).2.2 rfl rfl
